import Mathlib

/-!
Verification of the fee reconciliation logic of the transaction-confirmation
dialog (electrum/gui/qt/confirm_tx_dialog.py).

The development shallowly embeds the parts of the dialog that carry logic:

* the widget state relevant to fee entry (amount edits, modified flags,
  the fee slider activation flag) and the frozen-field predicates
  `is_send_fee_frozen` and `is_send_feerate_frozen`;
* `get_fee_estimator`, choosing between a literal fee, a feerate-based
  estimator, and automatic estimation;
* `update_fee_fields`, the recompute pass producing the displayed fee,
  the displayed feerate and the fee-rounding indicator;
* `update_tx`, the build pass with its error-handling and zero-fee
  fallback policy, parameterised by the external transaction builder;
* the user-edit event handlers `on_fee_or_feerate` and
  `fee_slider_callback`, as a step function over edit events;
* `run`, returning the accepted transaction or null on cancel.

Machine integers of the source are modelled as `Int`; decimal feerate
values as `Rat`.  Python `round` (round half to even) is modelled by
`pyRound`.  `quantize_feerate` and `SimpleConfig.estimate_fee_for_feerate`
live outside the reviewed file and are modelled from the specification.
-/

/-- Python's built-in `round` on a rational: round half to even. -/
def pyRound (x : ℚ) : ℤ :=
  if x - ⌊x⌋ < 1/2 then ⌊x⌋
  else if 1/2 < x - ⌊x⌋ then ⌊x⌋ + 1
  else if ⌊x⌋ % 2 = 0 then ⌊x⌋ else ⌊x⌋ + 1

theorem abs_pyRound_sub_le (x : ℚ) : |(pyRound x : ℚ) - x| ≤ 1/2 := by
  have h1 : (⌊x⌋ : ℚ) ≤ x := Int.floor_le x
  have h2 : x < ⌊x⌋ + 1 := Int.lt_floor_add_one x
  unfold pyRound
  split
  · next hc1 => rw [abs_le]; constructor <;> linarith
  · next hc1 =>
    split
    · next hc2 => rw [abs_le]; push_cast; constructor <;> linarith
    · next hc2 =>
      have heq : x - ⌊x⌋ = 1/2 := le_antisymm (not_lt.mp hc2) (not_lt.mp hc1)
      split
      · rw [abs_le]; constructor <;> linarith
      · rw [abs_le]; push_cast; constructor <;> linarith

/-- Modelled from the spec: `quantize_feerate` (imported from
electrum.util, outside the reviewed file) rounds a decimal sat/byte
feerate to a small fixed number of decimal places; the specification's
worked example quantizes 1000/226 to 4.42, i.e. two decimal places, which
is the precision adopted here. -/
def quantize_feerate (x : ℚ) : ℚ :=
  (pyRound (x * 100) : ℚ) / 100

theorem abs_quantize_feerate_sub_le (x : ℚ) :
    |quantize_feerate x - x| ≤ 1/200 := by
  unfold quantize_feerate
  have h := abs_pyRound_sub_le (x * 100)
  rw [abs_le] at h ⊢
  obtain ⟨hl, hr⟩ := h
  constructor <;> [linarith; linarith]

/-! ## Widget and dialog state -/

/-- State of an amount-entry line edit (BTCAmountEdit / FeerateEdit).
`amount` is the parsed value of the text (`get_amount`), `modified` the Qt
modified flag (`isModified`), `hasText` whether the text is non-empty,
`hasFocus` the Qt focus state and `visible` the widget visibility. -/
structure AmountEdit (A : Type) where
  amount : Option A
  modified : Bool
  hasText : Bool
  hasFocus : Bool
  visible : Bool
deriving DecidableEq

/-- Qt `setText` semantics of `setAmount`: the text is replaced by the
formatted amount (empty for null), which resets the modified flag. -/
def AmountEdit.setAmount {A : Type} (e : AmountEdit A) (v : Option A) : AmountEdit A :=
  { e with amount := v, modified := false, hasText := v.isSome }

/-- The fee slider collaborator, reduced to its activation flag, the only
part `update_fee_fields` and the edit handlers read (`is_active`,
`activate`, `deactivate`). -/
structure FeeSliderState where
  active : Bool
deriving DecidableEq

/-- The transaction object returned by the builder, reduced to the
interface the dialog uses: `estimated_size`, `get_fee`, `output_value`
and the replace-by-fee flag set through `set_rbf`. -/
structure Tx where
  estimated_size : ℤ
  get_fee : Option ℤ
  output_value : ℤ
  rbf : Bool
deriving DecidableEq

def Tx.set_rbf (t : Tx) (b : Bool) : Tx :=
  { t with rbf := b }

/-- The mutable state of TxEditor relevant to fee reconciliation.
Fee amounts (`fee_e`) are integer satoshis, feerate amounts (`feerate_e`)
decimal sat/byte.  `feerounding_text` records the integer passed to
`set_feerounding_text` and `feerounding_visible` the argument of
`set_feerounding_visibility`; `size_label` the amount set on the size
label. -/
structure TxEditorState where
  fee_e : AmountEdit ℤ
  feerate_e : AmountEdit ℚ
  fee_slider : FeeSliderState
  tx : Option Tx
  not_enough_funds : Bool
  no_dynfee_estimates : Bool
  needs_update : Bool
  feerounding_visible : Bool
  feerounding_text : ℤ
  size_label : ℤ
deriving DecidableEq

/-- `is_send_fee_frozen`: the fee edit is visible, user-modified, and has
text or focus. -/
def is_send_fee_frozen (s : TxEditorState) : Bool :=
  s.fee_e.visible && s.fee_e.modified && (s.fee_e.hasText || s.fee_e.hasFocus)

/-- `is_send_feerate_frozen`: the feerate edit is visible, user-modified,
and has text or focus. -/
def is_send_feerate_frozen (s : TxEditorState) : Bool :=
  s.feerate_e.visible && s.feerate_e.modified && (s.feerate_e.hasText || s.feerate_e.hasFocus)

/-- The fee-source modes of the specification's state machine. -/
inductive FeeInputMode where
  | AUTO
  | FEE_FROZEN
  | FEERATE_FROZEN
deriving DecidableEq

/-- The fee-source mode of a state: which of the two fields, if any, is
frozen (they are never both frozen, see the mutual-exclusion theorem). -/
def feeMode (s : TxEditorState) : FeeInputMode :=
  if is_send_fee_frozen s then .FEE_FROZEN
  else if is_send_feerate_frozen s then .FEERATE_FROZEN
  else .AUTO

/-! ## Fee estimator selection -/

/-- The fee estimator passed to the transaction builder: a literal fee in
satoshis, a partial application of `SimpleConfig.estimate_fee_for_feerate`
to a sat/kilobyte feerate, or null (automatic dynamic estimation). -/
inductive FeeEstimator where
  | fixedFee (fee : ℤ)
  | perKb (fee_per_kb : ℚ)
  | dynamic
deriving DecidableEq

/-- Modelled from the spec: `SimpleConfig.estimate_fee_for_feerate`
(outside the reviewed file) is the size-dependent estimator
`size  mapsto  feerate_per_kb * size / 1000`. -/
def estimate_fee_for_feerate (fee_per_kb : ℚ) (size : ℚ) : ℚ :=
  fee_per_kb * size / 1000

/-- `get_fee_estimator`: a frozen fee field with a non-null amount gives
the literal fee; else a frozen feerate field with a non-null amount gives
a feerate-based estimator, the sat/byte amount converted to sat/kilobyte
by multiplying by 1000 (the null-amount-to-0 coercion of the source is
dead code, its guard having excluded null); else null. -/
def get_fee_estimator (s : TxEditorState) : FeeEstimator :=
  match s.fee_e.amount, is_send_fee_frozen s with
  | some v, true => .fixedFee v
  | _, _ =>
    match s.feerate_e.amount, is_send_feerate_frozen s with
    | some a, true => .perKb (a * 1000)
    | _, _ => .dynamic

/-! ## The recompute pass: update_fee_fields -/

/-- The derived fee quote of one recompute pass: the local
`displayed_fee` and `displayed_feerate` of `update_fee_fields` at the
point where the rounding is computed, and the rounding amount
`feerounding`. -/
structure FeeQuote where
  displayed_fee : Option ℤ
  displayed_feerate : Option ℚ
  feerounding : ℤ
deriving DecidableEq

/-- The rounding amount: `(fee - displayed_fee) if (fee and displayed_fee
is not None) else 0`.  Note the Python truthiness test on `fee`: a zero
actual fee yields 0, exactly as a null one. -/
def feerounding_of (fee : Option ℤ) (displayed_fee : Option ℤ) : ℤ :=
  match fee, displayed_fee with
  | some f, some d => if f = 0 then 0 else f - d
  | _, _ => 0

/-- The `freeze_feerate or self.fee_slider.is_active()` branch of
`update_fee_fields`: the displayed feerate is the quantized frozen
feerate if present, else (slider active) the quantized actual
feerate written back into the feerate field; the displayed fee is
`round(displayed_feerate * size)` whenever the feerate is non-null, and
is written into the fee field.  Returns the updated state together with
the local `displayed_fee` and `displayed_feerate`. -/
def update_fee_fields_feerate_branch (s : TxEditorState) (size : ℤ) (fee : Option ℤ) :
    TxEditorState × Option ℤ × Option ℚ :=
  match s.feerate_e.amount with
  | some r =>
    let displayed_feerate := quantize_feerate r
    let displayed_fee := pyRound (displayed_feerate * size)
    ({ s with fee_e := s.fee_e.setAmount (some displayed_fee) },
      some displayed_fee, some displayed_feerate)
  | none =>
    if s.fee_slider.active then
      match fee with
      | some f =>
        let displayed_feerate := quantize_feerate ((f : ℚ) / (size : ℚ))
        let s1 := { s with feerate_e := s.feerate_e.setAmount (some displayed_feerate) }
        let displayed_fee := pyRound (displayed_feerate * size)
        ({ s1 with fee_e := s1.fee_e.setAmount (some displayed_fee) },
          some displayed_fee, some displayed_feerate)
      | none =>
        let s1 := { s with feerate_e := s.feerate_e.setAmount none }
        ({ s1 with fee_e := s1.fee_e.setAmount none }, none, none)
    else
      ({ s with fee_e := s.fee_e.setAmount none }, none, none)

/-- The remaining branch of `update_fee_fields`: the displayed fee is the
frozen fee amount, or else the actual fee written back into the fee
field; Python's `displayed_fee if displayed_fee else 0` maps both a null
and a zero value to 0 (`Option.getD 0`); the displayed feerate is the
quantized `displayed_fee / size`, written into the feerate field (the
null guard of the source is dead code after the coercion to 0). -/
def update_fee_fields_fee_branch (s : TxEditorState) (freeze_fee : Bool)
    (size : ℤ) (fee : Option ℤ) :
    TxEditorState × Option ℤ × Option ℚ :=
  let p : Option ℤ × TxEditorState :=
    if freeze_fee then (s.fee_e.amount, s)
    else (fee, { s with fee_e := s.fee_e.setAmount fee })
  let displayed_fee : ℤ := p.1.getD 0
  let displayed_feerate := quantize_feerate ((displayed_fee : ℚ) / (size : ℚ))
  ({ p.2 with feerate_e := p.2.feerate_e.setAmount (some displayed_feerate) },
    some displayed_fee, some displayed_feerate)

/-- The part of `update_fee_fields` below the `assert tx is not None`
(reachable only with both banner flags unset, so the state there equals
the entry state): size label update, branch selection on
`freeze_feerate or slider active`, and the rounding computation
`feerounding` with its indicator visibility `abs(feerounding) >= 1`.
The fiat label, being external formatting, is not modelled.  The source
divides by `size`; the embedding uses total rational division, the
builder contract guaranteeing a positive size (theorems assume it). -/
def update_fee_fields_success (s : TxEditorState) (t : Tx) :
    TxEditorState × FeeQuote :=
  let freeze_fee := is_send_fee_frozen s
  let freeze_feerate := is_send_feerate_frozen s
  let size := t.estimated_size
  let fee := t.get_fee
  let s2 := { s with size_label := size }
  let res :=
    if freeze_feerate || s2.fee_slider.active then
      update_fee_fields_feerate_branch s2 size fee
    else
      update_fee_fields_fee_branch s2 freeze_fee size fee
  let fr := feerounding_of fee res.2.1
  ({ res.1 with feerounding_text := fr, feerounding_visible := decide (1 ≤ |fr|) },
    { displayed_fee := res.2.1, displayed_feerate := res.2.2, feerounding := fr })

/-- `update_fee_fields`.  Returns `none` when the `assert tx is not None`
fails; otherwise the updated state and, unless the not-enough-funds /
no-dynamic-estimates early return was taken, the computed fee quote. -/
def update_fee_fields (s : TxEditorState) :
    Option (TxEditorState × Option FeeQuote) :=
  let freeze_fee := is_send_fee_frozen s
  let freeze_feerate := is_send_feerate_frozen s
  let tx := s.tx
  let s1 :=
    match tx with
    | some t => if s.no_dynfee_estimates then { s with size_label := t.estimated_size } else s
    | none => s
  if s1.not_enough_funds || s1.no_dynfee_estimates then
    let s2 := if freeze_fee then s1 else { s1 with fee_e := s1.fee_e.setAmount none }
    let s3 := if freeze_feerate then s2 else { s2 with feerate_e := s2.feerate_e.setAmount none }
    some ({ s3 with feerounding_visible := false }, none)
  else
    match tx with
    | none => none
    | some t =>
      let p := update_fee_fields_success s t
      some (p.1, some p.2)

/-! ## The build pass: update_tx -/

/-- Outcome of one invocation of the external transaction builder
`make_tx`: a constructed transaction, or one of the distinguishable
failures `NotEnoughFunds`, `NoDynamicFeeEstimates`,
`InternalAddressCorruption`, or any other exception. -/
inductive BuildResult where
  | success (tx : Tx)
  | notEnoughFunds
  | noDynamicFeeEstimates
  | internalAddressCorruption (msg : String)
  | otherFailure
deriving DecidableEq

/-- An exception propagating out of `update_tx`. -/
inductive RaisedExc where
  | internalAddressCorruption (msg : String)
  | other
deriving DecidableEq

/-- Result of one `update_tx` call: the state after the call, the
exception that propagated (if any), the message shown through
`show_error` (if any), and the sequence of fee-estimator arguments
passed to `make_tx`. -/
structure UpdateTxResult where
  state : TxEditorState
  raised : Option RaisedExc
  shownError : Option String
  calls : List FeeEstimator
deriving DecidableEq

/-- `ConfirmTxDialog.update_tx`, parameterised by the external builder.
The primary attempt uses `get_fee_estimator`; `NotEnoughFunds` sets the
banner flag, clears the tx, and (only when `fallback_to_zero_fee`)
retries once with a literal zero fee, swallowing every exception of the
retry; `NoDynamicFeeEstimates` sets its banner flag, clears the tx and
always retries once with zero fee, mapping a `NotEnoughFunds` of the
retry to the other banner flag and swallowing everything else;
`InternalAddressCorruption` clears the tx, shows the message and
re-raises; any other failure of the primary attempt propagates with the
tx left as it was.  Whenever control reaches the end, `set_rbf(True)` is
applied to the freshly built transaction. -/
def update_tx (make_tx : FeeEstimator → BuildResult) (s : TxEditorState)
    (fallback_to_zero_fee : Bool) : UpdateTxResult :=
  let fee_estimator := get_fee_estimator s
  match make_tx fee_estimator with
  | .success tx =>
    let s1 := { s with tx := some tx, not_enough_funds := false, no_dynfee_estimates := false }
    { state := { s1 with tx := some (tx.set_rbf true) },
      raised := none, shownError := none, calls := [fee_estimator] }
  | .notEnoughFunds =>
    let s1 := { s with not_enough_funds := true, tx := none }
    if fallback_to_zero_fee then
      match make_tx (.fixedFee 0) with
      | .success tx2 =>
        { state := { s1 with tx := some (tx2.set_rbf true) },
          raised := none, shownError := none, calls := [fee_estimator, .fixedFee 0] }
      | _ =>
        { state := s1, raised := none, shownError := none,
          calls := [fee_estimator, .fixedFee 0] }
    else
      { state := s1, raised := none, shownError := none, calls := [fee_estimator] }
  | .noDynamicFeeEstimates =>
    let s1 := { s with no_dynfee_estimates := true, tx := none }
    match make_tx (.fixedFee 0) with
    | .success tx2 =>
      { state := { s1 with tx := some (tx2.set_rbf true) },
        raised := none, shownError := none, calls := [fee_estimator, .fixedFee 0] }
    | .notEnoughFunds =>
      { state := { s1 with not_enough_funds := true }, raised := none,
        shownError := none, calls := [fee_estimator, .fixedFee 0] }
    | _ =>
      { state := s1, raised := none, shownError := none,
        calls := [fee_estimator, .fixedFee 0] }
  | .internalAddressCorruption msg =>
    { state := { s with tx := none }, raised := some (.internalAddressCorruption msg),
      shownError := some msg, calls := [fee_estimator] }
  | .otherFailure =>
    { state := s, raised := some .other, shownError := none, calls := [fee_estimator] }

/-! ## Edit events -/

/-- User-driven edit events of the fee controls.  `editFee` /
`editFeerate` are keystroke edits (Qt sets the text, the parsed amount
and the modified flag, then emits `textEdited`, running
`on_fee_or_feerate` with `editing_finished = False`); `commitFee` /
`commitFeerate` are `editingFinished` (focus leaves the field and
`on_fee_or_feerate` runs with `editing_finished = True`); `sliderMoved`
is `fee_slider_callback` with the chosen sat/kilobyte feerate (null or
zero meaning unknown); `toggleFeeDetails` flips the visibility of both
fee edits (`set_fee_edit_visible`). -/
inductive EditorEvent where
  | editFee (hasText : Bool) (amt : Option ℤ)
  | commitFee
  | editFeerate (hasText : Bool) (amt : Option ℚ)
  | commitFeerate
  | sliderMoved (fee_rate : Option ℤ)
  | toggleFeeDetails
deriving DecidableEq

/-- `_trigger_update`: the tx is cleared and the dirty flag set.  The
`update()` display refresh it triggers never reaches `update_fee_fields`
here since the tx was just cleared, so only these two fields change. -/
def trigger_update (s : TxEditorState) : TxEditorState :=
  { s with tx := none, needs_update := true }

/-- One edit event applied to the editor state, following
`on_fee_or_feerate`, `fee_slider_callback` and `toggle_fee_details`:
a keystroke edit clears the other field's modified flag; a commit whose
amount is null clears the edited field's own modified flag; both
deactivate the slider.  The slider callback activates the slider, writes
the quantized `fee_rate / 1000` (or null) into the feerate field and
clears the fee field's modified flag.  Configuration writes and label
updates are external and not modelled. -/
def applyEvent (s : TxEditorState) : EditorEvent → TxEditorState
  | .editFee ht amt =>
    let s1 := { s with
      fee_e := { s.fee_e with amount := amt, modified := true, hasText := ht, hasFocus := true } }
    let s2 := { s1 with feerate_e := { s1.feerate_e with modified := false } }
    trigger_update { s2 with fee_slider := { active := false } }
  | .commitFee =>
    let s1 := { s with fee_e := { s.fee_e with hasFocus := false } }
    let s2 :=
      if s1.fee_e.amount.isNone then
        { s1 with fee_e := { s1.fee_e with modified := false } }
      else s1
    trigger_update { s2 with fee_slider := { active := false } }
  | .editFeerate ht amt =>
    let s1 := { s with
      feerate_e := { s.feerate_e with amount := amt, modified := true, hasText := ht, hasFocus := true } }
    let s2 := { s1 with fee_e := { s1.fee_e with modified := false } }
    trigger_update { s2 with fee_slider := { active := false } }
  | .commitFeerate =>
    let s1 := { s with feerate_e := { s.feerate_e with hasFocus := false } }
    let s2 :=
      if s1.feerate_e.amount.isNone then
        { s1 with feerate_e := { s1.feerate_e with modified := false } }
      else s1
    trigger_update { s2 with fee_slider := { active := false } }
  | .sliderMoved fr =>
    let s1 := { s with fee_slider := { active := true } }
    let s2 :=
      match fr with
      | some r =>
        if r ≠ 0 then
          { s1 with feerate_e := s1.feerate_e.setAmount (some (quantize_feerate ((r : ℚ) / 1000))) }
        else
          { s1 with feerate_e := s1.feerate_e.setAmount none }
      | none => { s1 with feerate_e := s1.feerate_e.setAmount none }
    let s3 := { s2 with fee_e := { s2.fee_e with modified := false } }
    trigger_update s3
  | .toggleFeeDetails =>
    { s with
      fee_e := { s.fee_e with visible := !s.fee_e.visible },
      feerate_e := { s.feerate_e with visible := !s.feerate_e.visible } }

/-- A sequence of edit events applied in order. -/
def runEvents (s : TxEditorState) (es : List EditorEvent) : TxEditorState :=
  es.foldl applyEvent s

/-- The editor state right after `__init__`: nothing modified, no banner
flags, the feerate field prefilled from the configuration
(`config.fee_per_byte()`), visibility from the saved preference, and the
slider in its initial activation state. -/
def initEditorState (showDetails : Bool) (configFeePerByte : Option ℚ)
    (sliderActive : Bool) : TxEditorState :=
  { fee_e := { amount := none, modified := false, hasText := false,
               hasFocus := false, visible := showDetails }
    feerate_e := { amount := configFeePerByte, modified := false,
                   hasText := configFeePerByte.isSome, hasFocus := false,
                   visible := showDetails }
    fee_slider := { active := sliderActive }
    tx := none
    not_enough_funds := false
    no_dynfee_estimates := false
    needs_update := false
    feerounding_visible := false
    feerounding_text := 0
    size_label := 0 }

/-! ## Dialog close -/

/-- `TxEditor.run`: the dialog is executed; on a cancelled dialog
(falsy `exec_()`) null is returned, otherwise the current tx.  The
timer disconnect and widget deletion are external. -/
def TxEditor.run (s : TxEditorState) (execResult : Bool) : Option Tx :=
  let cancelled := !execResult
  if !cancelled then s.tx else none

/-! ## Theorems -/

/-- C9: on dialog close, `run` returns the current transaction object
when the dialog was accepted (truthy exec result) and null when it was
cancelled. -/
theorem c9_run_returns_tx_iff_accepted (s : TxEditorState) :
    TxEditor.run s true = s.tx ∧ TxEditor.run s false = none := by
  exact ⟨rfl, rfl⟩

/-- C5: when the builder raises `InternalAddressCorruption` on the
primary attempt, `update_tx` clears the tx, shows the error message to
the user, and re-raises the same exception unchanged. -/
theorem c5_address_corruption_propagates (make_tx : FeeEstimator → BuildResult)
    (s : TxEditorState) (fallback_to_zero_fee : Bool) (msg : String)
    (h : make_tx (get_fee_estimator s) = .internalAddressCorruption msg) :
    (update_tx make_tx s fallback_to_zero_fee).state.tx = none ∧
    (update_tx make_tx s fallback_to_zero_fee).shownError = some msg ∧
    (update_tx make_tx s fallback_to_zero_fee).raised
      = some (.internalAddressCorruption msg) := by
  simp only [update_tx, h]
  exact ⟨trivial, trivial, trivial⟩

def make_tx_c5 : FeeEstimator → BuildResult :=
  fun _ => .internalAddressCorruption "err"

def state_c5 : TxEditorState := initEditorState false none false

theorem c5_witness :
    make_tx_c5 (get_fee_estimator state_c5) = .internalAddressCorruption "err" ∧
    ((update_tx make_tx_c5 state_c5 false).state.tx = none ∧
     (update_tx make_tx_c5 state_c5 false).shownError = some "err" ∧
     (update_tx make_tx_c5 state_c5 false).raised
       = some (.internalAddressCorruption "err")) :=
  ⟨rfl, c5_address_corruption_propagates make_tx_c5 state_c5 false "err" rfl⟩

/-- C10: every `update_tx` invocation that completes without raising and
leaves a non-null transaction has set the replace-by-fee flag of that
transaction to true. -/
theorem c10_rbf_always_set (make_tx : FeeEstimator → BuildResult)
    (s : TxEditorState) (fallback_to_zero_fee : Bool) (t : Tx)
    (h1 : (update_tx make_tx s fallback_to_zero_fee).raised = none)
    (h2 : (update_tx make_tx s fallback_to_zero_fee).state.tx = some t) :
    t.rbf = true := by
  cases hm : make_tx (get_fee_estimator s) <;>
    simp only [update_tx, hm] at h1 h2
  case success a =>
    obtain rfl : a.set_rbf true = t := Option.some_injective _ h2
    rfl
  case notEnoughFunds =>
    cases hfb : fallback_to_zero_fee <;> rw [hfb] at h2
    · simp at h2
    · rw [if_pos rfl] at h2
      cases hm2 : make_tx (.fixedFee 0) <;> simp only [hm2] at h2 <;>
        simp at h2
      case success a2 =>
        obtain rfl : a2.set_rbf true = t := h2
        rfl
  case noDynamicFeeEstimates =>
    cases hm2 : make_tx (.fixedFee 0) <;> simp only [hm2] at h2 <;>
      simp at h2
    case success a2 =>
      obtain rfl : a2.set_rbf true = t := h2
      rfl
  case internalAddressCorruption msg => simp at h1
  case otherFailure => simp at h1

def make_tx_c10 : FeeEstimator → BuildResult :=
  fun _ => .success { estimated_size := 226, get_fee := some 1000,
                      output_value := 5000, rbf := false }

theorem c10_witness :
    (update_tx make_tx_c10 state_c5 false).raised = none ∧
    (update_tx make_tx_c10 state_c5 false).state.tx
      = some { estimated_size := 226, get_fee := some 1000,
               output_value := 5000, rbf := true } ∧
    ({ estimated_size := 226, get_fee := some 1000,
       output_value := 5000, rbf := true } : Tx).rbf = true :=
  ⟨rfl, rfl, c10_rbf_always_set make_tx_c10 state_c5 false _ rfl rfl⟩

/-- C3: a `NotEnoughFunds` from the primary build sets the
not-enough-funds banner and clears the tx; exactly when a zero-fee
fallback was requested there is exactly one retry, with a literal zero
fee; every failure of that retry is swallowed, leaving the tx null, and
`update_tx` raises nothing on this path. -/
theorem c3_not_enough_funds_fallback (make_tx : FeeEstimator → BuildResult)
    (s : TxEditorState) (fallback_to_zero_fee : Bool)
    (h : make_tx (get_fee_estimator s) = .notEnoughFunds) :
    (update_tx make_tx s fallback_to_zero_fee).state.not_enough_funds = true ∧
    (update_tx make_tx s fallback_to_zero_fee).raised = none ∧
    ((update_tx make_tx s fallback_to_zero_fee).calls
        = [get_fee_estimator s, .fixedFee 0] ↔ fallback_to_zero_fee = true) ∧
    (fallback_to_zero_fee = false →
      (update_tx make_tx s fallback_to_zero_fee).state.tx = none ∧
      (update_tx make_tx s fallback_to_zero_fee).calls = [get_fee_estimator s]) ∧
    (fallback_to_zero_fee = true →
      (∀ t2 : Tx, make_tx (.fixedFee 0) ≠ .success t2) →
      (update_tx make_tx s fallback_to_zero_fee).state.tx = none) := by
  simp only [update_tx, h]
  cases hfb : fallback_to_zero_fee
  · simp
  · simp only [if_pos rfl]
    cases hm2 : make_tx (.fixedFee 0) <;> simp_all

def make_tx_c3 : FeeEstimator → BuildResult :=
  fun e =>
    match e with
    | .fixedFee f => if f = 0 then .otherFailure else .notEnoughFunds
    | _ => .notEnoughFunds

theorem c3_witness :
    make_tx_c3 (get_fee_estimator state_c5) = .notEnoughFunds ∧
    (update_tx make_tx_c3 state_c5 true).state.not_enough_funds = true ∧
    (update_tx make_tx_c3 state_c5 true).raised = none ∧
    ((update_tx make_tx_c3 state_c5 true).calls
        = [get_fee_estimator state_c5, .fixedFee 0] ↔ true = true) ∧
    (true = false →
      (update_tx make_tx_c3 state_c5 true).state.tx = none ∧
      (update_tx make_tx_c3 state_c5 true).calls = [get_fee_estimator state_c5]) ∧
    (true = true →
      (∀ t2 : Tx, make_tx_c3 (.fixedFee 0) ≠ .success t2) →
      (update_tx make_tx_c3 state_c5 true).state.tx = none) :=
  ⟨rfl, c3_not_enough_funds_fallback make_tx_c3 state_c5 true rfl⟩

/-- C4: a `NoDynamicFeeEstimates` from the primary build sets the
no-dynamic-estimates banner, clears the tx, and is unconditionally
retried exactly once with a literal zero fee; a `NotEnoughFunds` of the
retry additionally sets the not-enough-funds banner; every failure of
the retry leaves the tx null and `update_tx` raises nothing on this
path. -/
theorem c4_no_dynfee_fallback (make_tx : FeeEstimator → BuildResult)
    (s : TxEditorState) (fallback_to_zero_fee : Bool)
    (h : make_tx (get_fee_estimator s) = .noDynamicFeeEstimates) :
    (update_tx make_tx s fallback_to_zero_fee).state.no_dynfee_estimates = true ∧
    (update_tx make_tx s fallback_to_zero_fee).raised = none ∧
    (update_tx make_tx s fallback_to_zero_fee).calls
      = [get_fee_estimator s, .fixedFee 0] ∧
    (make_tx (.fixedFee 0) = .notEnoughFunds →
      (update_tx make_tx s fallback_to_zero_fee).state.not_enough_funds = true ∧
      (update_tx make_tx s fallback_to_zero_fee).state.tx = none) ∧
    ((∀ t2 : Tx, make_tx (.fixedFee 0) ≠ .success t2) →
      (update_tx make_tx s fallback_to_zero_fee).state.tx = none) := by
  simp only [update_tx, h]
  cases hm2 : make_tx (.fixedFee 0) <;> simp_all

def make_tx_c4 : FeeEstimator → BuildResult :=
  fun e =>
    match e with
    | .fixedFee f => if f = 0 then .notEnoughFunds else .noDynamicFeeEstimates
    | _ => .noDynamicFeeEstimates

theorem c4_witness :
    make_tx_c4 (get_fee_estimator state_c5) = .noDynamicFeeEstimates ∧
    (update_tx make_tx_c4 state_c5 false).state.no_dynfee_estimates = true ∧
    (update_tx make_tx_c4 state_c5 false).raised = none ∧
    (update_tx make_tx_c4 state_c5 false).calls
      = [get_fee_estimator state_c5, .fixedFee 0] ∧
    (make_tx_c4 (.fixedFee 0) = .notEnoughFunds →
      (update_tx make_tx_c4 state_c5 false).state.not_enough_funds = true ∧
      (update_tx make_tx_c4 state_c5 false).state.tx = none) ∧
    ((∀ t2 : Tx, make_tx_c4 (.fixedFee 0) ≠ .success t2) →
      (update_tx make_tx_c4 state_c5 false).state.tx = none) :=
  ⟨rfl, c4_no_dynfee_fallback make_tx_c4 state_c5 false rfl⟩

/-- C2: `get_fee_estimator` precedence.  A frozen fee field with a
non-null amount yields the literal fee; otherwise a frozen feerate field
with a non-null amount yields the size-dependent estimator built from
the sat/byte amount times 1000 (sat/kilobyte), which maps a size to
`feerate_per_kb * size / 1000 = feerate_per_byte * size`; otherwise the
estimator is null, deferring to dynamic estimation — exactly one source
of truth per call. -/
theorem c2_fee_estimator_precedence (s : TxEditorState) :
    (∀ v : ℤ, is_send_fee_frozen s = true → s.fee_e.amount = some v →
      get_fee_estimator s = .fixedFee v) ∧
    (∀ a : ℚ, (is_send_fee_frozen s = false ∨ s.fee_e.amount = none) →
      is_send_feerate_frozen s = true → s.feerate_e.amount = some a →
      get_fee_estimator s = .perKb (a * 1000) ∧
      ∀ size : ℚ, estimate_fee_for_feerate (a * 1000) size = a * size) ∧
    ((is_send_fee_frozen s = false ∨ s.fee_e.amount = none) →
      (is_send_feerate_frozen s = false ∨ s.feerate_e.amount = none) →
      get_fee_estimator s = .dynamic) := by
  refine ⟨?_, ?_, ?_⟩
  · intro v hf ha
    simp [get_fee_estimator, hf, ha]
  · intro a hnf hfr ha
    constructor
    · rcases hnf with hnf | hnf <;>
        cases hfa : s.fee_e.amount <;>
        simp_all [get_fee_estimator]
    · intro size
      unfold estimate_fee_for_feerate
      field_simp
      ring
  · intro hnf hnfr
    rcases hnf with hnf | hnf <;> rcases hnfr with hnfr | hnfr <;>
      cases hfa : s.fee_e.amount <;> cases hra : s.feerate_e.amount <;>
      simp_all [get_fee_estimator]

def state_c2a : TxEditorState :=
  { initEditorState true none false with
    fee_e := { amount := some 777, modified := true, hasText := true,
               hasFocus := false, visible := true } }

def state_c2b : TxEditorState :=
  { initEditorState true none false with
    feerate_e := { amount := some 5, modified := true, hasText := true,
                   hasFocus := false, visible := true } }

theorem c2_witness :
    (is_send_fee_frozen state_c2a = true ∧ state_c2a.fee_e.amount = some 777 ∧
      get_fee_estimator state_c2a = .fixedFee 777) ∧
    ((is_send_fee_frozen state_c2b = false ∨ state_c2b.fee_e.amount = none) ∧
      is_send_feerate_frozen state_c2b = true ∧ state_c2b.feerate_e.amount = some 5 ∧
      (get_fee_estimator state_c2b = .perKb (5 * 1000) ∧
        ∀ size : ℚ, estimate_fee_for_feerate (5 * 1000) size = 5 * size)) ∧
    ((is_send_fee_frozen state_c5 = false ∨ state_c5.fee_e.amount = none) ∧
      (is_send_feerate_frozen state_c5 = false ∨ state_c5.feerate_e.amount = none) ∧
      get_fee_estimator state_c5 = .dynamic) :=
  ⟨⟨rfl, rfl, (c2_fee_estimator_precedence state_c2a).1 777 rfl rfl⟩,
   ⟨Or.inl rfl, rfl, rfl,
    (c2_fee_estimator_precedence state_c2b).2.1 5 (Or.inl rfl) rfl rfl⟩,
   ⟨Or.inl rfl, Or.inl rfl,
    (c2_fee_estimator_precedence state_c5).2.2 (Or.inl rfl) (Or.inl rfl)⟩⟩

def state_c6 : TxEditorState :=
  { initEditorState true none false with
    not_enough_funds := true,
    fee_e := { amount := some 100, modified := true, hasText := true,
               hasFocus := false, visible := true } }

/-- C6 counterexample: with not_enough_funds set and the fee field
frozen at 100 satoshis, the recompute pass returns early (no quote) but
leaves the frozen fee field at 100 rather than clearing it to null —
refuting the claim that both fields are cleared regardless of which
fields are frozen. -/
theorem c6_frozen_field_not_cleared :
    (update_fee_fields state_c6).map
        (fun p => (p.1.fee_e.amount, p.2.isNone)) = some (some 100, true) ∧
    some (100 : ℤ) ≠ none :=
  ⟨rfl, by simp⟩

/-- C6 amended: whenever not_enough_funds or no_dynfee_estimates is
set, the recompute pass hides the rounding indicator and returns early
without computing a fee quote, clearing each displayed field to null
unless that field is frozen, in which case its value is kept. -/
theorem c6_banner_early_return (s : TxEditorState)
    (h : s.not_enough_funds = true ∨ s.no_dynfee_estimates = true) :
    ∃ s2, update_fee_fields s = some (s2, none) ∧
      s2.feerounding_visible = false ∧
      (is_send_fee_frozen s = false → s2.fee_e.amount = none) ∧
      (is_send_feerate_frozen s = false → s2.feerate_e.amount = none) ∧
      (is_send_fee_frozen s = true → s2.fee_e.amount = s.fee_e.amount) ∧
      (is_send_feerate_frozen s = true → s2.feerate_e.amount = s.feerate_e.amount) := by
  have hcond : (s.not_enough_funds || s.no_dynfee_estimates) = true := by
    rcases h with h | h <;> simp [h]
  unfold update_fee_fields
  rcases htx : s.tx with _ | t <;>
    cases hnd : s.no_dynfee_estimates <;>
    cases hff : is_send_fee_frozen s <;>
    cases hfr : is_send_feerate_frozen s <;>
    simp_all [AmountEdit.setAmount]

theorem c6_witness :
    (state_c6.not_enough_funds = true ∨ state_c6.no_dynfee_estimates = true) ∧
    (∃ s2, update_fee_fields state_c6 = some (s2, none) ∧
      s2.feerounding_visible = false ∧
      (is_send_fee_frozen state_c6 = false → s2.fee_e.amount = none) ∧
      (is_send_feerate_frozen state_c6 = false → s2.feerate_e.amount = none) ∧
      (is_send_fee_frozen state_c6 = true → s2.fee_e.amount = state_c6.fee_e.amount) ∧
      (is_send_feerate_frozen state_c6 = true →
        s2.feerate_e.amount = state_c6.feerate_e.amount)) :=
  ⟨Or.inl rfl, c6_banner_early_return state_c6 (Or.inl rfl)⟩

/-- On a success state (tx non-null, no banner flag), `update_fee_fields`
is the success-path computation. -/
theorem update_fee_fields_eq_success (s : TxEditorState) (t : Tx)
    (htx : s.tx = some t) (h1 : s.not_enough_funds = false)
    (h2 : s.no_dynfee_estimates = false) :
    update_fee_fields s = some ((update_fee_fields_success s t).1,
      some (update_fee_fields_success s t).2) := by
  simp [update_fee_fields, htx, h1, h2]

theorem success_feerounding (s : TxEditorState) (t : Tx) :
    (update_fee_fields_success s t).2.feerounding
      = feerounding_of t.get_fee ((update_fee_fields_success s t).2.displayed_fee) := rfl

theorem success_visible (s : TxEditorState) (t : Tx) :
    (update_fee_fields_success s t).1.feerounding_visible
      = decide (1 ≤ |(update_fee_fields_success s t).2.feerounding|) := rfl

/-- In the feerate/slider branch the displayed fee is exactly
`round(displayed_feerate * size)` when the feerate is non-null, and null
when it is null. -/
theorem feerate_branch_fee_of_feerate (s : TxEditorState) (size : ℤ) (fee : Option ℤ) :
    (∀ r : ℚ, (update_fee_fields_feerate_branch s size fee).2.2 = some r →
      (update_fee_fields_feerate_branch s size fee).2.1 = some (pyRound (r * size))) ∧
    ((update_fee_fields_feerate_branch s size fee).2.2 = none →
      (update_fee_fields_feerate_branch s size fee).2.1 = none) := by
  unfold update_fee_fields_feerate_branch
  rcases hra : s.feerate_e.amount with _ | r0
  · cases hsl : s.fee_slider.active <;> rcases hfee : fee with _ | f <;> simp_all
  · simp_all

/-- In the other branch the displayed fee is a (non-null) integer and the
displayed feerate is its quantized per-byte quotient. -/
theorem fee_branch_quote (s : TxEditorState) (ff : Bool) (size : ℤ) (fee : Option ℤ) :
    ∃ d : ℤ, (update_fee_fields_fee_branch s ff size fee).2.1 = some d ∧
      (update_fee_fields_fee_branch s ff size fee).2.2
        = some (quantize_feerate ((d : ℚ) / (size : ℚ))) := by
  unfold update_fee_fields_fee_branch
  cases ff <;> simp

/-- The success-path quote agrees with the branch selected by
`freeze_feerate or slider active`. -/
theorem success_quote_cases (s : TxEditorState) (t : Tx) :
    ((is_send_feerate_frozen s || s.fee_slider.active) = true →
      (update_fee_fields_success s t).2.displayed_fee
        = (update_fee_fields_feerate_branch { s with size_label := t.estimated_size }
            t.estimated_size t.get_fee).2.1 ∧
      (update_fee_fields_success s t).2.displayed_feerate
        = (update_fee_fields_feerate_branch { s with size_label := t.estimated_size }
            t.estimated_size t.get_fee).2.2) ∧
    ((is_send_feerate_frozen s || s.fee_slider.active) = false →
      (update_fee_fields_success s t).2.displayed_fee
        = (update_fee_fields_fee_branch { s with size_label := t.estimated_size }
            (is_send_fee_frozen s) t.estimated_size t.get_fee).2.1 ∧
      (update_fee_fields_success s t).2.displayed_feerate
        = (update_fee_fields_fee_branch { s with size_label := t.estimated_size }
            (is_send_fee_frozen s) t.estimated_size t.get_fee).2.2) := by
  unfold update_fee_fields_success
  constructor <;> intro h <;> simp [h]

def tx_c7 : Tx := { estimated_size := 250, get_fee := some 0, output_value := 0, rbf := true }

def state_c7 : TxEditorState :=
  { initEditorState true none false with
    tx := some tx_c7,
    feerate_e := { amount := some 5, modified := true, hasText := true,
                   hasFocus := false, visible := true } }

/-- C7 counterexample: on a successful build with actual fee 0 and the
feerate frozen at 5 sat/byte over 250 bytes, the displayed fee is 1250
but the code computes a rounding delta of 0 and hides the indicator
(Python truthiness of `fee` in `if (fee and displayed_fee is not None)`),
whereas the claim demands delta = actual_fee - displayed_fee = -1250 and
a visible indicator. -/
theorem c7_zero_fee_truthiness :
    (update_fee_fields state_c7).map
        (fun p => (p.2.map (fun q => (q.displayed_fee, q.feerounding)),
                   p.1.feerounding_visible))
      = some (some (some 1250, 0), false) ∧
    tx_c7.get_fee = some 0 ∧ (0 : ℤ) ≠ 0 - 1250 := by
  refine ⟨?_, rfl, by decide⟩
  have h5 : quantize_feerate 5 = 5 := by unfold quantize_feerate pyRound; norm_num
  have h2 : pyRound ((5 : ℚ) * 250) = 1250 := by unfold pyRound; norm_num
  simp [update_fee_fields, state_c7, tx_c7, update_fee_fields_success,
        update_fee_fields_feerate_branch, is_send_feerate_frozen, is_send_fee_frozen,
        initEditorState, h5, h2, feerounding_of, AmountEdit.setAmount]

/-- C7 amended: over a successful build, the rounding delta equals
actual_fee minus displayed_fee, except that it is zero whenever
actual_fee is null or zero, or displayed_fee is null; the rounding
indicator is shown iff the absolute delta is at least 1 satoshi. -/
theorem c7_feerounding_delta (s : TxEditorState) (t : Tx)
    (htx : s.tx = some t) (h1 : s.not_enough_funds = false)
    (h2 : s.no_dynfee_estimates = false) :
    ∃ s2 q, update_fee_fields s = some (s2, some q) ∧
      (∀ f d, t.get_fee = some f → q.displayed_fee = some d → f ≠ 0 →
        q.feerounding = f - d) ∧
      (t.get_fee = none ∨ t.get_fee = some 0 ∨ q.displayed_fee = none →
        q.feerounding = 0) ∧
      (s2.feerounding_visible = true ↔ 1 ≤ |q.feerounding|) := by
  refine ⟨_, _, update_fee_fields_eq_success s t htx h1 h2, ?_, ?_, ?_⟩
  · intro f d hf hd hfz
    rw [success_feerounding, hf, hd]
    simp [feerounding_of, hfz]
  · intro hc
    rw [success_feerounding]
    rcases hc with hc | hc | hc
    · rw [hc]
      rcases (update_fee_fields_success s t).2.displayed_fee <;> simp [feerounding_of]
    · rw [hc]
      rcases (update_fee_fields_success s t).2.displayed_fee <;> simp [feerounding_of]
    · rw [hc]
      rcases t.get_fee <;> simp [feerounding_of]
  · rw [success_visible]
    simp

theorem c7_witness :
    state_c7.tx = some tx_c7 ∧ state_c7.not_enough_funds = false ∧
    state_c7.no_dynfee_estimates = false ∧
    (∃ s2 q, update_fee_fields state_c7 = some (s2, some q) ∧
      (∀ f d, tx_c7.get_fee = some f → q.displayed_fee = some d → f ≠ 0 →
        q.feerounding = f - d) ∧
      (tx_c7.get_fee = none ∨ tx_c7.get_fee = some 0 ∨ q.displayed_fee = none →
        q.feerounding = 0) ∧
      (s2.feerounding_visible = true ↔ 1 ≤ |q.feerounding|)) :=
  ⟨rfl, rfl, rfl, c7_feerounding_delta state_c7 tx_c7 rfl rfl rfl⟩

/-- C1: over a successful build (tx non-null, neither banner flag set,
positive size), the recompute pass yields a quote whose displayed fee
and displayed feerate are consistent within one unit of the rounding
that produced them: whenever both are non-null their discrepancy
`abs(displayed_fee - displayed_feerate * size)` is at most half a
satoshi in the feerate-frozen / slider-active branch and at most half a
feerate-quantization step times the size in the other branch (bounded
together by `max (1/2) (size/200)`); in particular, in the
feerate-frozen or slider-active branch, whenever the displayed feerate
is non-null, `displayed_fee = round(displayed_feerate * size)`
exactly. -/
theorem c1_displayed_consistency (s : TxEditorState) (t : Tx)
    (htx : s.tx = some t) (h1 : s.not_enough_funds = false)
    (h2 : s.no_dynfee_estimates = false) (hsize : 0 < t.estimated_size) :
    ∃ s2 q, update_fee_fields s = some (s2, some q) ∧
      (∀ (d : ℤ) (r : ℚ), q.displayed_fee = some d → q.displayed_feerate = some r →
        |(d : ℚ) - r * (t.estimated_size : ℚ)|
          ≤ max (1/2) ((t.estimated_size : ℚ) / 200)) ∧
      ((is_send_feerate_frozen s = true ∨ s.fee_slider.active = true) →
        ∀ r : ℚ, q.displayed_feerate = some r →
          q.displayed_fee = some (pyRound (r * (t.estimated_size : ℚ)))) := by
  refine ⟨_, _, update_fee_fields_eq_success s t htx h1 h2, ?_, ?_⟩
  · intro d r hd hr
    by_cases hb : (is_send_feerate_frozen s || s.fee_slider.active) = true
    · obtain ⟨hfe, hfr⟩ := (success_quote_cases s t).1 hb
      rw [hfe] at hd
      rw [hfr] at hr
      have := (feerate_branch_fee_of_feerate
        { s with size_label := t.estimated_size } t.estimated_size t.get_fee).1 r hr
      rw [this] at hd
      obtain rfl : d = pyRound (r * (t.estimated_size : ℚ)) := (Option.some_injective _ hd).symm
      exact le_trans (abs_pyRound_sub_le _) (le_max_left _ _)
    · have hb' : (is_send_feerate_frozen s || s.fee_slider.active) = false :=
        Bool.not_eq_true _ ▸ (Bool.eq_false_iff.mpr hb)
      obtain ⟨hfe, hfr⟩ := (success_quote_cases s t).2 hb'
      obtain ⟨d0, hd0, hr0⟩ := fee_branch_quote
        { s with size_label := t.estimated_size } (is_send_fee_frozen s)
        t.estimated_size t.get_fee
      rw [hfe, hd0] at hd
      rw [hfr, hr0] at hr
      obtain rfl : d = d0 := (Option.some_injective _ hd).symm
      obtain rfl : r = quantize_feerate ((d : ℚ) / (t.estimated_size : ℚ)) :=
        (Option.some_injective _ hr).symm
      have hszq : (0 : ℚ) < (t.estimated_size : ℚ) := by exact_mod_cast hsize
      have hne : ((t.estimated_size : ℚ)) ≠ 0 := ne_of_gt hszq
      have hq := abs_quantize_feerate_sub_le ((d : ℚ) / (t.estimated_size : ℚ))
      have habs : |(d : ℚ) / (t.estimated_size : ℚ)
          - quantize_feerate ((d : ℚ) / (t.estimated_size : ℚ))| ≤ 1/200 := by
        rw [abs_sub_comm]; exact hq
      calc |(d : ℚ) - quantize_feerate ((d : ℚ) / (t.estimated_size : ℚ))
              * (t.estimated_size : ℚ)|
          = |((d : ℚ) / (t.estimated_size : ℚ)
              - quantize_feerate ((d : ℚ) / (t.estimated_size : ℚ)))
              * (t.estimated_size : ℚ)| := by
            rw [sub_mul, div_mul_cancel₀ _ hne]
        _ = |(d : ℚ) / (t.estimated_size : ℚ)
              - quantize_feerate ((d : ℚ) / (t.estimated_size : ℚ))|
              * |(t.estimated_size : ℚ)| := abs_mul _ _
        _ ≤ (1/200) * (t.estimated_size : ℚ) := by
            rw [abs_of_pos hszq]
            exact mul_le_mul_of_nonneg_right habs (le_of_lt hszq)
        _ = (t.estimated_size : ℚ) / 200 := by ring
        _ ≤ max (1/2) ((t.estimated_size : ℚ) / 200) := le_max_right _ _
  · intro hor r hr
    have hb : (is_send_feerate_frozen s || s.fee_slider.active) = true := by
      rcases hor with h | h <;> simp [h]
    obtain ⟨hfe, hfr⟩ := (success_quote_cases s t).1 hb
    rw [hfr] at hr
    have := (feerate_branch_fee_of_feerate
      { s with size_label := t.estimated_size } t.estimated_size t.get_fee).1 r hr
    rw [hfe, this]

def tx_c1 : Tx := { estimated_size := 250, get_fee := some 1248, output_value := 0, rbf := true }

def state_c1 : TxEditorState :=
  { initEditorState true none false with
    tx := some tx_c1,
    feerate_e := { amount := some 5, modified := true, hasText := true,
                   hasFocus := false, visible := true } }

theorem c1_witness :
    state_c1.tx = some tx_c1 ∧ state_c1.not_enough_funds = false ∧
    state_c1.no_dynfee_estimates = false ∧ 0 < tx_c1.estimated_size ∧
    (∃ s2 q, update_fee_fields state_c1 = some (s2, some q) ∧
      (∀ (d : ℤ) (r : ℚ), q.displayed_fee = some d → q.displayed_feerate = some r →
        |(d : ℚ) - r * (tx_c1.estimated_size : ℚ)|
          ≤ max (1/2) ((tx_c1.estimated_size : ℚ) / 200)) ∧
      ((is_send_feerate_frozen state_c1 = true ∨ state_c1.fee_slider.active = true) →
        ∀ r : ℚ, q.displayed_feerate = some r →
          q.displayed_fee = some (pyRound (r * (tx_c1.estimated_size : ℚ))))) :=
  ⟨rfl, rfl, rfl, by decide,
   c1_displayed_consistency state_c1 tx_c1 rfl rfl rfl (by decide)⟩

/-- Invariant preserved by all edit events: the two modified flags are
never simultaneously set (so at most one field is frozen), and the two
fee edits share their visibility (they are shown and hidden together by
`set_fee_edit_visible`). -/
def editorInv (s : TxEditorState) : Prop :=
  (s.fee_e.modified = true → s.feerate_e.modified = false) ∧
  s.fee_e.visible = s.feerate_e.visible

theorem editorInv_applyEvent (s : TxEditorState) (e : EditorEvent)
    (h : editorInv s) : editorInv (applyEvent s e) := by
  obtain ⟨hm, hv⟩ := h
  cases e with
  | editFee ht amt =>
    exact ⟨by intro _; simp [applyEvent, trigger_update],
           by simpa [applyEvent, trigger_update] using hv⟩
  | commitFee =>
    constructor
    · intro hmf
      by_cases hn : s.fee_e.amount.isNone <;>
        simp [applyEvent, trigger_update, hn] at hmf ⊢ <;> exact hm hmf
    · by_cases hn : s.fee_e.amount.isNone <;>
        simp [applyEvent, trigger_update, hn] <;> exact hv
  | editFeerate ht amt =>
    exact ⟨by simp [applyEvent, trigger_update],
           by simpa [applyEvent, trigger_update] using hv⟩
  | commitFeerate =>
    constructor
    · intro hmf
      by_cases hn : s.feerate_e.amount.isNone <;>
        simp [applyEvent, trigger_update, hn] at hmf ⊢ <;> exact hm hmf
    · by_cases hn : s.feerate_e.amount.isNone <;>
        simp [applyEvent, trigger_update, hn] <;> exact hv
  | sliderMoved fr =>
    constructor
    · rcases fr with _ | r
      · simp [applyEvent, trigger_update, AmountEdit.setAmount]
      · by_cases hz : r = 0 <;> simp [applyEvent, trigger_update, AmountEdit.setAmount, hz]
    · rcases fr with _ | r
      · simpa [applyEvent, trigger_update, AmountEdit.setAmount] using hv
      · by_cases hz : r = 0 <;>
          simpa [applyEvent, trigger_update, AmountEdit.setAmount, hz] using hv
  | toggleFeeDetails =>
    exact ⟨by simpa [applyEvent] using hm, by simpa [applyEvent] using hv⟩

theorem editorInv_runEvents (es : List EditorEvent) (s : TxEditorState)
    (h : editorInv s) : editorInv (runEvents s es) := by
  induction es generalizing s with
  | nil => exact h
  | cons e es ih => exact ih _ (editorInv_applyEvent s e h)

theorem editorInv_init (sd : Bool) (cf : Option ℚ) (sa : Bool) :
    editorInv (initEditorState sd cf sa) :=
  ⟨by simp [initEditorState], rfl⟩

theorem of_feeMode_fee_frozen (s : TxEditorState)
    (h : feeMode s = .FEE_FROZEN) : is_send_fee_frozen s = true := by
  unfold feeMode at h
  split at h
  · assumption
  · split at h <;> cases h

theorem of_feeMode_feerate_frozen (s : TxEditorState)
    (h : feeMode s = .FEERATE_FROZEN) :
    is_send_feerate_frozen s = true ∧ is_send_fee_frozen s = false := by
  unfold feeMode at h
  split at h
  · cases h
  · next hff =>
    split at h
    · exact ⟨by assumption, by simpa using hff⟩
    · cases h

/-- C8: over every sequence of edit events from the initial dialog
state, the fee and feerate fields are never both frozen; committing an
edit to the feerate field from FEE_FROZEN ends in FEERATE_FROZEN; and a
commit that leaves the frozen field's amount null clears that field's
frozen flag, returning the mode to AUTO (stated for both fields). -/
theorem c8_fee_source_mutual_exclusion (sd : Bool) (cf : Option ℚ) (sa : Bool)
    (es : List EditorEvent) :
    (¬(is_send_fee_frozen (runEvents (initEditorState sd cf sa) es) = true ∧
       is_send_feerate_frozen (runEvents (initEditorState sd cf sa) es) = true)) ∧
    (∀ r : ℚ, feeMode (runEvents (initEditorState sd cf sa) es) = .FEE_FROZEN →
      feeMode (runEvents (initEditorState sd cf sa)
        (es ++ [.editFeerate true (some r), .commitFeerate])) = .FEERATE_FROZEN) ∧
    (feeMode (runEvents (initEditorState sd cf sa) es) = .FEE_FROZEN →
      (runEvents (initEditorState sd cf sa) es).fee_e.amount = none →
      feeMode (applyEvent (runEvents (initEditorState sd cf sa) es) .commitFee) = .AUTO) ∧
    (feeMode (runEvents (initEditorState sd cf sa) es) = .FEERATE_FROZEN →
      (runEvents (initEditorState sd cf sa) es).feerate_e.amount = none →
      feeMode (applyEvent (runEvents (initEditorState sd cf sa) es) .commitFeerate) = .AUTO) := by
  have hinv : editorInv (runEvents (initEditorState sd cf sa) es) :=
    editorInv_runEvents es _ (editorInv_init sd cf sa)
  obtain ⟨hmx, hvis⟩ := hinv
  refine ⟨?_, ?_, ?_, ?_⟩
  · rintro ⟨ha, hb⟩
    simp only [is_send_fee_frozen, Bool.and_eq_true] at ha
    simp only [is_send_feerate_frozen, Bool.and_eq_true] at hb
    have := hmx ha.1.2
    rw [this] at hb
    exact absurd hb.1.2 (by simp)
  · intro r hm
    have hff := of_feeMode_fee_frozen _ hm
    simp only [is_send_fee_frozen, Bool.and_eq_true] at hff
    have hfv : (runEvents (initEditorState sd cf sa) es).feerate_e.visible = true :=
      hvis ▸ hff.1.1
    have hsplit : runEvents (initEditorState sd cf sa)
        (es ++ [.editFeerate true (some r), .commitFeerate])
        = applyEvent (applyEvent (runEvents (initEditorState sd cf sa) es)
            (.editFeerate true (some r))) .commitFeerate := by
      simp [runEvents, List.foldl_append]
    rw [hsplit]
    simp [applyEvent, trigger_update, feeMode, is_send_fee_frozen,
          is_send_feerate_frozen, hfv]
  · intro hm hamt
    have hff := of_feeMode_fee_frozen _ hm
    simp only [is_send_fee_frozen, Bool.and_eq_true] at hff
    have hrm := hmx hff.1.2
    simp [applyEvent, trigger_update, hamt, feeMode, is_send_fee_frozen,
          is_send_feerate_frozen, hrm]
  · intro hm hamt
    obtain ⟨hfr, hnf⟩ := of_feeMode_feerate_frozen _ hm
    have hfm : (runEvents (initEditorState sd cf sa) es).fee_e.modified = false := by
      by_cases hc : (runEvents (initEditorState sd cf sa) es).fee_e.modified = true
      · have := hmx hc
        simp only [is_send_feerate_frozen, Bool.and_eq_true] at hfr
        rw [this] at hfr
        exact absurd hfr.1.2 (by simp)
      · simpa using hc
    simp [applyEvent, trigger_update, hamt, feeMode, is_send_fee_frozen,
          is_send_feerate_frozen, hfm]

theorem c8_witness :
    feeMode (runEvents (initEditorState true none false)
      [.editFee true (some 100)]) = .FEE_FROZEN ∧
    feeMode (runEvents (initEditorState true none false)
      ([.editFee true (some 100)] ++ [.editFeerate true (some 5), .commitFeerate]))
      = .FEERATE_FROZEN ∧
    feeMode (runEvents (initEditorState true none false)
      [.editFee true none]) = .FEE_FROZEN ∧
    (runEvents (initEditorState true none false) [.editFee true none]).fee_e.amount = none ∧
    feeMode (applyEvent (runEvents (initEditorState true none false)
      [.editFee true none]) .commitFee) = .AUTO ∧
    feeMode (runEvents (initEditorState true none false)
      [.editFeerate true none]) = .FEERATE_FROZEN ∧
    (runEvents (initEditorState true none false) [.editFeerate true none]).feerate_e.amount = none ∧
    feeMode (applyEvent (runEvents (initEditorState true none false)
      [.editFeerate true none]) .commitFeerate) = .AUTO :=
  ⟨by decide,
   (c8_fee_source_mutual_exclusion true none false [.editFee true (some 100)]).2.1 5 (by decide),
   by decide, by decide,
   (c8_fee_source_mutual_exclusion true none false [.editFee true none]).2.2.1
     (by decide) (by decide),
   by decide, by decide,
   (c8_fee_source_mutual_exclusion true none false [.editFeerate true none]).2.2.2
     (by decide) (by decide)⟩
